import Mathlib

/-!
Shallow embedding of `service_manager/service_manager.go` from
cloudfoundry-incubator/galera-healthcheck.

The Go code drives an external process supervisor (monit) and a readiness
HTTP endpoint.  We model the external world explicitly: each tick of the
readiness wait loop sees a supervisor status result and a probe result,
given by a stream `ticks : Nat → TickEnv`; the whole-operation environment
`Env` additionally fixes whether the marker-file write succeeds and whether
the supervisor `Start`/`Stop` commands fail.  Every externally visible
action of the code is recorded as an `Event` in program order, and the
unbounded `for` loop is given a fuel parameter: a `none` outcome means the
loop has not terminated within `fuel` ticks.
-/

namespace GaleraHealthcheck

/-- Result of one readiness-probe HTTP GET (`httpClient.Get` in
`waitForGaleraInit`): either a transport/connection error, or an HTTP
response carrying a status code. -/
inductive ProbeResult where
  | connError
  | response (statusCode : Nat)
deriving DecidableEq, Repr

/-- What the external world answers on one tick of the wait loop:
the result of `m.MonitClient.Status` (error message or status string) and
the result of the readiness HTTP GET. -/
structure TickEnv where
  statusResult : Except String String
  probeResult : ProbeResult

/-- The `ServiceManager` struct: configuration fields relevant to the
modelled behaviour (the logger only produces log lines). -/
structure ServiceManager where
  serviceName : String
  stateFilePath : String
  galeraInitAddress : String

/-- Modelled from the spec: the constant `monit_client.ServiceRunning`
lives in the `monit_client` package, which is not under `src/`; the spec
says supervisor status is "compared against a single recognized 'running'
sentinel" by exact string equality.  Its concrete value is irrelevant to
every claim, which only uses (in)equality with this sentinel. -/
def ServiceRunning : String := "running"

/-- Externally visible action performed by the code, in program order. -/
inductive Event where
  | fsWrite (path content : String)
  | monitStart (name : String)
  | monitStop (name : String)
  | monitStatus (name : String)
  | probeGet (addr : String)
deriving DecidableEq, Repr

/-- Classified failure outcomes, following the spec's taxonomy (§7); each
corresponds to one `return "", err` site in the Go code.
`supervisorFailure` carries the supervisor's own error unchanged. -/
inductive Failure where
  | invalidIntent
  | persistenceFailure
  | supervisorFailure (cause : String)
  | statusQueryFailed
  | processNotRunning
  | readinessRejected (statusCode : Nat)
deriving DecidableEq, Repr

/-- The body of `waitForGaleraInit`'s ticker loop, iterated with `fuel`
remaining ticks starting at tick index `i`.  Mirrors the Go code line by
line: query `Status` (error → `statusQueryFailed`); compare against the
running sentinel (different → `processNotRunning`); HTTP GET the readiness
address (transport error → `continue` to the next tick; non-200 →
`readinessRejected`; 200 → success).  Returns the loop outcome (`none` if
`fuel` ticks did not reach a terminal condition) together with the events
of the ticks it ran. -/
def waitForGaleraInitAux (m : ServiceManager) (ticks : Nat → TickEnv) :
    Nat → Nat → Option (Except Failure Unit) × List Event
  | 0, _ => (none, [])
  | fuel + 1, i =>
    match (ticks i).statusResult with
    | .error _ => (some (.error .statusQueryFailed), [.monitStatus m.serviceName])
    | .ok status =>
      if status ≠ ServiceRunning then
        (some (.error .processNotRunning), [.monitStatus m.serviceName])
      else
        match (ticks i).probeResult with
        | .connError =>
            let r := waitForGaleraInitAux m ticks fuel (i + 1)
            (r.1, .monitStatus m.serviceName :: .probeGet m.galeraInitAddress :: r.2)
        | .response code =>
            if code ≠ 200 then
              (some (.error (.readinessRejected code)),
                [.monitStatus m.serviceName, .probeGet m.galeraInitAddress])
            else
              (some (.ok ()),
                [.monitStatus m.serviceName, .probeGet m.galeraInitAddress])

/-- `waitForGaleraInit`: run the wait loop from the first tick. -/
def waitForGaleraInit (m : ServiceManager) (ticks : Nat → TickEnv)
    (fuel : Nat) : Option (Except Failure Unit) × List Event :=
  waitForGaleraInitAux m ticks fuel 0

/-- The whole-operation external environment: whether the
`ioutil.WriteFile` of the state marker succeeds, the error (if any) of
`MonitClient.Start` and of `MonitClient.Stop`, and the per-tick answers
seen by the wait loop. -/
structure Env where
  writeOk : Bool
  startErr : Option String
  stopErr : Option String
  ticks : Nat → TickEnv

/-- `StartServiceBootstrap`: refuse the arbitrator role; write marker
`NEEDS_BOOTSTRAP`; issue supervisor `Start`; run the readiness wait;
return the bootstrap success message. -/
def StartServiceBootstrap (m : ServiceManager) (env : Env) (fuel : Nat) :
    Option (Except Failure String) × List Event :=
  if m.serviceName = "garbd" then
    (some (.error .invalidIntent), [])
  else if env.writeOk = false then
    (some (.error .persistenceFailure), [])
  else
    match env.startErr with
    | some e =>
        (some (.error (.supervisorFailure e)),
          [.fsWrite m.stateFilePath "NEEDS_BOOTSTRAP", .monitStart m.serviceName])
    | none =>
        let w := waitForGaleraInit m env.ticks fuel
        let evts := Event.fsWrite m.stateFilePath "NEEDS_BOOTSTRAP" ::
          Event.monitStart m.serviceName :: w.2
        match w.1 with
        | none => (none, evts)
        | some (.error f) => (some (.error f), evts)
        | some (.ok _) => (some (.ok "cluster bootstrap successful"), evts)

/-- `StartServiceJoin`: write marker `CLUSTERED`; issue supervisor
`Start`; run the readiness wait; return the join success message. -/
def StartServiceJoin (m : ServiceManager) (env : Env) (fuel : Nat) :
    Option (Except Failure String) × List Event :=
  if env.writeOk = false then
    (some (.error .persistenceFailure), [])
  else
    match env.startErr with
    | some e =>
        (some (.error (.supervisorFailure e)),
          [.fsWrite m.stateFilePath "CLUSTERED", .monitStart m.serviceName])
    | none =>
        let w := waitForGaleraInit m env.ticks fuel
        let evts := Event.fsWrite m.stateFilePath "CLUSTERED" ::
          Event.monitStart m.serviceName :: w.2
        match w.1 with
        | none => (none, evts)
        | some (.error f) => (some (.error f), evts)
        | some (.ok _) => (some (.ok "join cluster successful"), evts)

/-- `StartServiceSingleNode`: write marker `SINGLE_NODE`; issue supervisor
`Start`; run the readiness wait; return the single-node success message. -/
def StartServiceSingleNode (m : ServiceManager) (env : Env) (fuel : Nat) :
    Option (Except Failure String) × List Event :=
  if env.writeOk = false then
    (some (.error .persistenceFailure), [])
  else
    match env.startErr with
    | some e =>
        (some (.error (.supervisorFailure e)),
          [.fsWrite m.stateFilePath "SINGLE_NODE", .monitStart m.serviceName])
    | none =>
        let w := waitForGaleraInit m env.ticks fuel
        let evts := Event.fsWrite m.stateFilePath "SINGLE_NODE" ::
          Event.monitStart m.serviceName :: w.2
        match w.1 with
        | none => (none, evts)
        | some (.error f) => (some (.error f), evts)
        | some (.ok _) => (some (.ok "single node start successful"), evts)

/-- `StopService`: issue supervisor `Stop` only; surface its error
unchanged, otherwise return the stop success message. -/
def StopService (m : ServiceManager) (env : Env) :
    Except Failure String × List Event :=
  match env.stopErr with
  | some e => (.error (.supervisorFailure e), [.monitStop m.serviceName])
  | none => (.ok "stop successful", [.monitStop m.serviceName])

/-- A tick is quiet when it keeps the loop going: status is the running
sentinel and the probe hits a transport error. -/
def TickEnv.quiet (t : TickEnv) : Prop :=
  t.statusResult = .ok ServiceRunning ∧ t.probeResult = .connError

/-- A tick's signals are decisive when the loop body terminates on them:
a status-query error, a status different from the running sentinel, or an
actual HTTP response (of any status code). -/
def TickEnv.decisive (t : TickEnv) : Prop :=
  (∃ e, t.statusResult = Except.error e) ∨
    (∃ s, t.statusResult = Except.ok s ∧ s ≠ ServiceRunning) ∨
    (∃ c, t.probeResult = ProbeResult.response c)

/-- Number of `MonitClient.Status` queries in an event trace. -/
def countStatusQueries (es : List Event) : Nat :=
  es.countP fun e => match e with | .monitStatus _ => true | _ => false

/-- Number of readiness-probe HTTP GETs in an event trace. -/
def countProbes (es : List Event) : Nat :=
  es.countP fun e => match e with | .probeGet _ => true | _ => false

/-- Number of `MonitClient.Start` calls in an event trace. -/
def countStarts (es : List Event) : Nat :=
  es.countP fun e => match e with | .monitStart _ => true | _ => false

/-- Number of `MonitClient.Stop` calls in an event trace. -/
def countStops (es : List Event) : Nat :=
  es.countP fun e => match e with | .monitStop _ => true | _ => false

/-- Number of file writes in an event trace. -/
def countWrites (es : List Event) : Nat :=
  es.countP fun e => match e with | .fsWrite _ _ => true | _ => false

/-- Replay the file writes of an event trace onto a model of the
filesystem (a map from path to contents). -/
def applyEvents : List Event → (String → Option String) → String → Option String
  | [], fs => fs
  | .fsWrite p c :: es, fs =>
      applyEvents es (fun q => if q = p then some c else fs q)
  | _ :: es, fs => applyEvents es fs

/-- The events of `k` consecutive quiet ticks: each queries status then
probes, and the loop continues. -/
def quietEvents (m : ServiceManager) : Nat → List Event
  | 0 => []
  | k + 1 => .monitStatus m.serviceName :: .probeGet m.galeraInitAddress ::
      quietEvents m k

/-! ## Sample concrete inputs, used to exercise the theorems -/

/-- A sample database-node configuration. -/
def sampleM : ServiceManager :=
  ⟨"mariadb", "/var/vcap/store/mysql/state.txt", "127.0.0.1:8114"⟩

/-- A sample arbitrator-node configuration. -/
def garbdM : ServiceManager :=
  ⟨"garbd", "/var/vcap/store/mysql/state.txt", "127.0.0.1:8114"⟩

/-- Ticks: two connection errors while running, then a 200 response. -/
def okTicks : Nat → TickEnv := fun i =>
  if i < 2 then ⟨Except.ok ServiceRunning, ProbeResult.connError⟩
  else ⟨Except.ok ServiceRunning, ProbeResult.response 200⟩

/-- Environment where everything succeeds (after two transient probe
errors). -/
def okEnv : Env := ⟨true, none, none, okTicks⟩

/-- Ticks: one quiet tick, then an HTTP 503 response. -/
def rejTicks : Nat → TickEnv := fun i =>
  if i < 1 then ⟨Except.ok ServiceRunning, ProbeResult.connError⟩
  else ⟨Except.ok ServiceRunning, ProbeResult.response 503⟩

/-- Ticks: one quiet tick, then the service reports a non-running state. -/
def crashTicks : Nat → TickEnv := fun i =>
  if i < 1 then ⟨Except.ok ServiceRunning, ProbeResult.connError⟩
  else ⟨Except.ok "failing", ProbeResult.connError⟩

/-- Ticks: one quiet tick, then the status query fails. -/
def statusErrTicks : Nat → TickEnv := fun i =>
  if i < 1 then ⟨Except.ok ServiceRunning, ProbeResult.connError⟩
  else ⟨Except.error "connection refused", ProbeResult.connError⟩

/-- Ticks that are quiet forever. -/
def quietTicks : Nat → TickEnv :=
  fun _ => ⟨Except.ok ServiceRunning, ProbeResult.connError⟩

/-! ## Evaluation lemmas for one tick of the wait loop -/

lemma waitAux_statusErr (m : ServiceManager) (ticks : Nat → TickEnv)
    (fuel i : Nat) (e : String)
    (h : (ticks i).statusResult = Except.error e) :
    waitForGaleraInitAux m ticks (fuel + 1) i =
      (some (.error .statusQueryFailed), [.monitStatus m.serviceName]) := by
  simp [waitForGaleraInitAux, h]

lemma waitAux_notRunning (m : ServiceManager) (ticks : Nat → TickEnv)
    (fuel i : Nat) (s : String)
    (h : (ticks i).statusResult = Except.ok s) (hn : s ≠ ServiceRunning) :
    waitForGaleraInitAux m ticks (fuel + 1) i =
      (some (.error .processNotRunning), [.monitStatus m.serviceName]) := by
  simp [waitForGaleraInitAux, h, hn]

lemma waitAux_response (m : ServiceManager) (ticks : Nat → TickEnv)
    (fuel i : Nat) (c : Nat)
    (h : (ticks i).statusResult = Except.ok ServiceRunning)
    (hp : (ticks i).probeResult = ProbeResult.response c) :
    waitForGaleraInitAux m ticks (fuel + 1) i =
      (some (if c = 200 then .ok () else .error (.readinessRejected c)),
        [.monitStatus m.serviceName, .probeGet m.galeraInitAddress]) := by
  by_cases hc : c = 200 <;> simp [waitForGaleraInitAux, h, hp, hc]

lemma waitAux_quiet_step (m : ServiceManager) (ticks : Nat → TickEnv)
    (fuel i : Nat) (h : (ticks i).quiet) :
    waitForGaleraInitAux m ticks (fuel + 1) i =
      ((waitForGaleraInitAux m ticks fuel (i + 1)).1,
        .monitStatus m.serviceName :: .probeGet m.galeraInitAddress ::
          (waitForGaleraInitAux m ticks fuel (i + 1)).2) := by
  obtain ⟨hs, hp⟩ := h
  simp [waitForGaleraInitAux, hs, hp]

/-- Skipping `k` quiet ticks: the loop's outcome is the outcome from tick
`j + k`, and the trace is the `k` quiet-tick traces followed by the rest. -/
lemma waitAux_shift (m : ServiceManager) (ticks : Nat → TickEnv) :
    ∀ (k j fuel : Nat), (∀ i, i < k → (ticks (j + i)).quiet) →
    waitForGaleraInitAux m ticks (k + fuel) j =
      ((waitForGaleraInitAux m ticks fuel (j + k)).1,
        quietEvents m k ++ (waitForGaleraInitAux m ticks fuel (j + k)).2) := by
  intro k
  induction k with
  | zero => intro j fuel _; simp [quietEvents]
  | succ k ih =>
      intro j fuel hq
      have hj : (ticks j).quiet := by
        have := hq 0 (Nat.succ_pos k); simpa using this
      have hrest : ∀ i, i < k → (ticks ((j + 1) + i)).quiet := by
        intro i hi
        have := hq (i + 1) (Nat.succ_lt_succ hi)
        simpa [Nat.add_assoc, Nat.add_comm 1 i] using this
      have hstep := waitAux_quiet_step m ticks (k + fuel) j hj
      have hshift := ih (j + 1) fuel hrest
      have harith : k + 1 + fuel = k + fuel + 1 := by omega
      have harith2 : j + 1 + k = j + (k + 1) := by omega
      rw [harith, hstep, hshift, harith2]
      simp [quietEvents]

lemma countStatusQueries_quietEvents (m : ServiceManager) (k : Nat) :
    countStatusQueries (quietEvents m k) = k := by
  induction k with
  | zero => simp [quietEvents, countStatusQueries]
  | succ k ih =>
      simp only [quietEvents, countStatusQueries, List.countP_cons] at *
      simp [ih]

lemma countProbes_quietEvents (m : ServiceManager) (k : Nat) :
    countProbes (quietEvents m k) = k := by
  induction k with
  | zero => simp [quietEvents, countProbes]
  | succ k ih =>
      simp only [quietEvents, countProbes, List.countP_cons] at *
      simp [ih]

lemma countStatusQueries_append (es fs : List Event) :
    countStatusQueries (es ++ fs) = countStatusQueries es + countStatusQueries fs := by
  simp [countStatusQueries, List.countP_append]

lemma countProbes_append (es fs : List Event) :
    countProbes (es ++ fs) = countProbes es + countProbes fs := by
  simp [countProbes, List.countP_append]

/-- Splitting the wait at tick `k` after `k` quiet ticks. -/
lemma wait_split (m : ServiceManager) (ticks : Nat → TickEnv) (k f : Nat)
    (hq : ∀ i, i < k → (ticks i).quiet) :
    waitForGaleraInit m ticks (k + f) =
      ((waitForGaleraInitAux m ticks f k).1,
        quietEvents m k ++ (waitForGaleraInitAux m ticks f k).2) := by
  have hq0 : ∀ i, i < k → (ticks (0 + i)).quiet := by
    intro i hi; simpa using hq i hi
  have := waitAux_shift m ticks k 0 f hq0
  simpa [waitForGaleraInit] using this

/-- The wait loop never writes the filesystem. -/
lemma waitAux_no_write (m : ServiceManager) (ticks : Nat → TickEnv) :
    ∀ fuel i p c, Event.fsWrite p c ∉ (waitForGaleraInitAux m ticks fuel i).2 := by
  intro fuel
  induction fuel with
  | zero => intro i p c; simp [waitForGaleraInitAux]
  | succ fuel ih =>
      intro i p c
      rcases hs : (ticks i).statusResult with e | s
      · rw [waitAux_statusErr m ticks fuel i e hs]; simp
      · by_cases hr : s = ServiceRunning
        · subst hr
          rcases hp : (ticks i).probeResult with _ | cd
          · rw [waitAux_quiet_step m ticks fuel i ⟨hs, hp⟩]
            simpa using ih (i + 1) p c
          · rw [waitAux_response m ticks fuel i cd hs hp]; simp
        · rw [waitAux_notRunning m ticks fuel i s hs hr]; simp

/-- Replaying a trace with no file writes leaves the filesystem as is. -/
lemma applyEvents_no_write (es : List Event) :
    ∀ fs : String → Option String, (∀ p c, Event.fsWrite p c ∉ es) →
      applyEvents es fs = fs := by
  induction es with
  | nil => intro fs _; rfl
  | cons e es ih =>
      intro fs h
      cases e with
      | fsWrite p c => exact absurd (List.mem_cons_self _ _) (h p c)
      | monitStart n =>
          rw [show applyEvents (Event.monitStart n :: es) fs = applyEvents es fs
            from rfl]
          exact ih fs fun p c hm => h p c (List.mem_cons_of_mem _ hm)
      | monitStop n =>
          rw [show applyEvents (Event.monitStop n :: es) fs = applyEvents es fs
            from rfl]
          exact ih fs fun p c hm => h p c (List.mem_cons_of_mem _ hm)
      | monitStatus n =>
          rw [show applyEvents (Event.monitStatus n :: es) fs = applyEvents es fs
            from rfl]
          exact ih fs fun p c hm => h p c (List.mem_cons_of_mem _ hm)
      | probeGet a =>
          rw [show applyEvents (Event.probeGet a :: es) fs = applyEvents es fs
            from rfl]
          exact ih fs fun p c hm => h p c (List.mem_cons_of_mem _ hm)

/-- Replaying a marker write followed by a write-free tail fixes the
marker file's contents. -/
lemma applyEvents_marker (p c : String) (es : List Event)
    (fs : String → Option String) (h : ∀ q d, Event.fsWrite q d ∉ es) :
    applyEvents (Event.fsWrite p c :: es) fs p = some c := by
  rw [show applyEvents (Event.fsWrite p c :: es) fs =
      applyEvents es (fun q => if q = p then some c else fs q) from rfl]
  rw [applyEvents_no_write es _ h]
  simp

/-- A tick whose signals are not decisive is a quiet tick. -/
lemma quiet_of_not_decisive (t : TickEnv) (h : ¬ t.decisive) : t.quiet := by
  rcases hs : t.statusResult with e | s
  · exact absurd (Or.inl ⟨e, hs⟩) h
  · rcases hp : t.probeResult with _ | c
    · by_cases hr : s = ServiceRunning
      · exact ⟨hr ▸ hs, hp⟩
      · exact absurd (Or.inr (Or.inl ⟨s, hs, hr⟩)) h
    · exact absurd (Or.inr (Or.inr ⟨c, hp⟩)) h

/-- The wait after `N` quiet ticks and a 200 on tick `N + 1`. -/
lemma wait_success_after_quiet (m : ServiceManager) (ticks : Nat → TickEnv)
    (N f : Nat) (hq : ∀ i, i < N → (ticks i).quiet)
    (hsN : (ticks N).statusResult = Except.ok ServiceRunning)
    (hpN : (ticks N).probeResult = ProbeResult.response 200) :
    waitForGaleraInit m ticks (N + (f + 1)) =
      (some (.ok ()), quietEvents m N ++
        [.monitStatus m.serviceName, .probeGet m.galeraInitAddress]) := by
  rw [wait_split m ticks N (f + 1) hq, waitAux_response m ticks f N 200 hsN hpN]
  simp

/-- Trace of `StartServiceBootstrap` for a non-arbitrator service once the
marker write succeeds: the write, then the start command, then the wait's
events (none if `Start` itself failed). -/
lemma startBootstrap_events (m : ServiceManager) (env : Env) (fuel : Nat)
    (hname : m.serviceName ≠ "garbd") (hw : env.writeOk = true) :
    (StartServiceBootstrap m env fuel).2 =
      .fsWrite m.stateFilePath "NEEDS_BOOTSTRAP" :: .monitStart m.serviceName ::
        (if env.startErr = none then (waitForGaleraInit m env.ticks fuel).2
          else []) := by
  rcases hst : env.startErr with _ | e
  · rcases hw1 : (waitForGaleraInit m env.ticks fuel).1 with _ | r
    · simp [StartServiceBootstrap, hname, hw, hst, hw1]
    · rcases r with f | u <;> simp [StartServiceBootstrap, hname, hw, hst, hw1]
  · simp [StartServiceBootstrap, hname, hw, hst]

/-- Trace of `StartServiceJoin` once the marker write succeeds. -/
lemma startJoin_events (m : ServiceManager) (env : Env) (fuel : Nat)
    (hw : env.writeOk = true) :
    (StartServiceJoin m env fuel).2 =
      .fsWrite m.stateFilePath "CLUSTERED" :: .monitStart m.serviceName ::
        (if env.startErr = none then (waitForGaleraInit m env.ticks fuel).2
          else []) := by
  rcases hst : env.startErr with _ | e
  · rcases hw1 : (waitForGaleraInit m env.ticks fuel).1 with _ | r
    · simp [StartServiceJoin, hw, hst, hw1]
    · rcases r with f | u <;> simp [StartServiceJoin, hw, hst, hw1]
  · simp [StartServiceJoin, hw, hst]

/-- Trace of `StartServiceSingleNode` once the marker write succeeds. -/
lemma startSingleNode_events (m : ServiceManager) (env : Env) (fuel : Nat)
    (hw : env.writeOk = true) :
    (StartServiceSingleNode m env fuel).2 =
      .fsWrite m.stateFilePath "SINGLE_NODE" :: .monitStart m.serviceName ::
        (if env.startErr = none then (waitForGaleraInit m env.ticks fuel).2
          else []) := by
  rcases hst : env.startErr with _ | e
  · rcases hw1 : (waitForGaleraInit m env.ticks fuel).1 with _ | r
    · simp [StartServiceSingleNode, hw, hst, hw1]
    · rcases r with f | u <;> simp [StartServiceSingleNode, hw, hst, hw1]
  · simp [StartServiceSingleNode, hw, hst]

/-- Any success message of `StartServiceBootstrap` is the bootstrap one. -/
lemma startBootstrap_ok_msg (m : ServiceManager) (env : Env) (fuel : Nat)
    (msg : String)
    (h : (StartServiceBootstrap m env fuel).1 = some (.ok msg)) :
    msg = "cluster bootstrap successful" := by
  by_cases hg : m.serviceName = "garbd"
  · simp [StartServiceBootstrap, hg] at h
  · by_cases hw : env.writeOk = false
    · simp [StartServiceBootstrap, hg, hw] at h
    · rcases hst : env.startErr with _ | e
      · rcases hw1 : (waitForGaleraInit m env.ticks fuel).1 with _ | r
        · simp [StartServiceBootstrap, hg, hw, hst, hw1] at h
        · rcases r with f | u
          · simp [StartServiceBootstrap, hg, hw, hst, hw1] at h
          · simp [StartServiceBootstrap, hg, hw, hst, hw1] at h
            exact h.symm
      · simp [StartServiceBootstrap, hg, hw, hst] at h

/-- Any success message of `StartServiceJoin` is the join one. -/
lemma startJoin_ok_msg (m : ServiceManager) (env : Env) (fuel : Nat)
    (msg : String)
    (h : (StartServiceJoin m env fuel).1 = some (.ok msg)) :
    msg = "join cluster successful" := by
  by_cases hw : env.writeOk = false
  · simp [StartServiceJoin, hw] at h
  · rcases hst : env.startErr with _ | e
    · rcases hw1 : (waitForGaleraInit m env.ticks fuel).1 with _ | r
      · simp [StartServiceJoin, hw, hst, hw1] at h
      · rcases r with f | u
        · simp [StartServiceJoin, hw, hst, hw1] at h
        · simp [StartServiceJoin, hw, hst, hw1] at h
          exact h.symm
    · simp [StartServiceJoin, hw, hst] at h

/-- Any success message of `StartServiceSingleNode` is the single-node
one. -/
lemma startSingleNode_ok_msg (m : ServiceManager) (env : Env) (fuel : Nat)
    (msg : String)
    (h : (StartServiceSingleNode m env fuel).1 = some (.ok msg)) :
    msg = "single node start successful" := by
  by_cases hw : env.writeOk = false
  · simp [StartServiceSingleNode, hw] at h
  · rcases hst : env.startErr with _ | e
    · rcases hw1 : (waitForGaleraInit m env.ticks fuel).1 with _ | r
      · simp [StartServiceSingleNode, hw, hst, hw1] at h
      · rcases r with f | u
        · simp [StartServiceSingleNode, hw, hst, hw1] at h
        · simp [StartServiceSingleNode, hw, hst, hw1] at h
          exact h.symm
    · simp [StartServiceSingleNode, hw, hst] at h

/-! ## Claim theorems -/

/-- C1: during the readiness wait, a connection error from the probe is
not terminal: if the supervisor reports the running sentinel on every tick
and the probe returns a connection error on the first `N` ticks and an
HTTP 200 on tick `N + 1`, the wait succeeds after exactly `N + 1` ticks
(it issues exactly `N + 1` status queries) and each start operation
returns the success message of its intent. -/
theorem conn_errors_tolerated_then_success
    (m : ServiceManager) (env : Env) (N fuel : Nat)
    (hq : ∀ i, i < N → (env.ticks i).quiet)
    (hsN : (env.ticks N).statusResult = Except.ok ServiceRunning)
    (hpN : (env.ticks N).probeResult = ProbeResult.response 200)
    (hfuel : N + 1 ≤ fuel)
    (hw : env.writeOk = true) (hstart : env.startErr = none)
    (hname : m.serviceName ≠ "garbd") :
    (waitForGaleraInit m env.ticks fuel).1 = some (.ok ()) ∧
    countStatusQueries (waitForGaleraInit m env.ticks fuel).2 = N + 1 ∧
    (StartServiceBootstrap m env fuel).1 =
      some (.ok "cluster bootstrap successful") ∧
    (StartServiceJoin m env fuel).1 = some (.ok "join cluster successful") ∧
    (StartServiceSingleNode m env fuel).1 =
      some (.ok "single node start successful") := by
  obtain ⟨x, hx⟩ := Nat.exists_eq_add_of_le hfuel
  have hfe : fuel = N + (x + 1) := by omega
  subst hfe
  have hwait := wait_success_after_quiet m env.ticks N x hq hsN hpN
  refine ⟨by rw [hwait], ?_, ?_, ?_, ?_⟩
  · rw [hwait]
    rw [show ((some (Except.ok ()), quietEvents m N ++
        [Event.monitStatus m.serviceName,
          Event.probeGet m.galeraInitAddress]).2 :
        List Event) = quietEvents m N ++
        [Event.monitStatus m.serviceName,
          Event.probeGet m.galeraInitAddress] from rfl]
    rw [countStatusQueries_append, countStatusQueries_quietEvents]
    simp [countStatusQueries, List.countP_cons]
  · simp [StartServiceBootstrap, hname, hw, hstart, hwait]
  · simp [StartServiceJoin, hw, hstart, hwait]
  · simp [StartServiceSingleNode, hw, hstart, hwait]

/-- C1 witness: with two connection-error ticks then a 200, the join
succeeds with the join message after exactly three status queries. -/
theorem conn_errors_tolerated_then_success_witness :
    (∀ i, i < 2 → (okEnv.ticks i).quiet) ∧
    (okEnv.ticks 2).statusResult = Except.ok ServiceRunning ∧
    (okEnv.ticks 2).probeResult = ProbeResult.response 200 ∧
    countStatusQueries (waitForGaleraInit sampleM okEnv.ticks 3).2 = 3 ∧
    (StartServiceJoin sampleM okEnv 3).1 =
      some (.ok "join cluster successful") := by
  have hq : ∀ i, i < 2 → (okEnv.ticks i).quiet := by
    intro i hi
    simp [okEnv, okTicks, TickEnv.quiet, hi]
  have h := conn_errors_tolerated_then_success sampleM okEnv 2 3 hq rfl rfl
    (by omega) rfl rfl (by simp [sampleM])
  exact ⟨hq, rfl, rfl, h.2.1, h.2.2.2.1⟩

/-- C2: readiness-wait success is exactly HTTP 200: after any number of
quiet (transport-error) ticks, a tick whose probe yields an HTTP response
terminates the wait — with `ReadinessRejected` carrying the code if it is
not 200, successfully if it is 200. -/
theorem readiness_success_is_exactly_200
    (m : ServiceManager) (ticks : Nat → TickEnv) (k fuel c : Nat)
    (hq : ∀ i, i < k → (ticks i).quiet)
    (hs : (ticks k).statusResult = Except.ok ServiceRunning)
    (hp : (ticks k).probeResult = ProbeResult.response c)
    (hfuel : k + 1 ≤ fuel) :
    (c ≠ 200 → (waitForGaleraInit m ticks fuel).1 =
      some (.error (.readinessRejected c))) ∧
    (c = 200 → (waitForGaleraInit m ticks fuel).1 = some (.ok ())) := by
  obtain ⟨x, hx⟩ := Nat.exists_eq_add_of_le hfuel
  have hfe : fuel = k + (x + 1) := by omega
  subst hfe
  rw [wait_split m ticks k (x + 1) hq, waitAux_response m ticks x k c hs hp]
  constructor
  · intro hc; simp [hc]
  · intro hc; simp [hc]

/-- C2 witness: one transport-error tick then an HTTP 503 terminates the
wait with `ReadinessRejected 503`. -/
theorem readiness_success_is_exactly_200_witness :
    (∀ i, i < 1 → (rejTicks i).quiet) ∧
    (rejTicks 1).probeResult = ProbeResult.response 503 ∧
    (waitForGaleraInit sampleM rejTicks 2).1 =
      some (.error (.readinessRejected 503)) := by
  have hq : ∀ i, i < 1 → (rejTicks i).quiet := by
    intro i hi; simp [rejTicks, TickEnv.quiet, hi]
  have h := readiness_success_is_exactly_200 sampleM rejTicks 1 2 503 hq rfl
    rfl (by omega)
  exact ⟨hq, rfl, h.1 (by omega)⟩

/-- C3: on each tick the supervisor status is queried before the probe;
if the status is not the running sentinel the wait ends with
`ProcessNotRunning`, the readiness endpoint is not contacted on that tick
(`k` probes for `k` quiet ticks) and no further ticks occur (`k + 1`
status queries in total). -/
theorem not_running_terminates_without_probe
    (m : ServiceManager) (ticks : Nat → TickEnv) (k fuel : Nat) (s : String)
    (hq : ∀ i, i < k → (ticks i).quiet)
    (hs : (ticks k).statusResult = Except.ok s) (hn : s ≠ ServiceRunning)
    (hfuel : k + 1 ≤ fuel) :
    (waitForGaleraInit m ticks fuel).1 = some (.error .processNotRunning) ∧
    (waitForGaleraInit m ticks fuel).2 =
      quietEvents m k ++ [.monitStatus m.serviceName] ∧
    countProbes (waitForGaleraInit m ticks fuel).2 = k ∧
    countStatusQueries (waitForGaleraInit m ticks fuel).2 = k + 1 := by
  obtain ⟨x, hx⟩ := Nat.exists_eq_add_of_le hfuel
  have hfe : fuel = k + (x + 1) := by omega
  subst hfe
  have hwait : waitForGaleraInit m ticks (k + (x + 1)) =
      (some (.error .processNotRunning),
        quietEvents m k ++ [.monitStatus m.serviceName]) := by
    rw [wait_split m ticks k (x + 1) hq, waitAux_notRunning m ticks x k s hs hn]
  have h2 : (waitForGaleraInit m ticks (k + (x + 1))).2 =
      quietEvents m k ++ [.monitStatus m.serviceName] := by rw [hwait]
  refine ⟨by rw [hwait], h2, ?_, ?_⟩
  · rw [h2, countProbes_append, countProbes_quietEvents]
    simp [countProbes, List.countP_cons]
  · rw [h2, countStatusQueries_append, countStatusQueries_quietEvents]
    simp [countStatusQueries, List.countP_cons]

/-- C3 witness: one quiet tick, then status "failing": the wait fails with
`ProcessNotRunning` after two status queries and only one probe. -/
theorem not_running_terminates_without_probe_witness :
    (∀ i, i < 1 → (crashTicks i).quiet) ∧
    (crashTicks 1).statusResult = Except.ok "failing" ∧
    (waitForGaleraInit sampleM crashTicks 9).1 =
      some (.error .processNotRunning) ∧
    countProbes (waitForGaleraInit sampleM crashTicks 9).2 = 1 ∧
    countStatusQueries (waitForGaleraInit sampleM crashTicks 9).2 = 2 := by
  have hq : ∀ i, i < 1 → (crashTicks i).quiet := by
    intro i hi; simp [crashTicks, TickEnv.quiet, hi]
  have h := not_running_terminates_without_probe sampleM crashTicks 1 9
    "failing" hq rfl (by simp [ServiceRunning]) (by omega)
  exact ⟨hq, rfl, h.1, h.2.2.1, h.2.2.2⟩

/-- C4: a supervisor status-query error on any tick terminates the wait
immediately with `StatusQueryFailed`: no probe is issued on that tick and
no further ticks occur. -/
theorem status_query_failure_terminates_wait
    (m : ServiceManager) (ticks : Nat → TickEnv) (k fuel : Nat) (e : String)
    (hq : ∀ i, i < k → (ticks i).quiet)
    (hs : (ticks k).statusResult = Except.error e)
    (hfuel : k + 1 ≤ fuel) :
    (waitForGaleraInit m ticks fuel).1 = some (.error .statusQueryFailed) ∧
    (waitForGaleraInit m ticks fuel).2 =
      quietEvents m k ++ [.monitStatus m.serviceName] ∧
    countProbes (waitForGaleraInit m ticks fuel).2 = k ∧
    countStatusQueries (waitForGaleraInit m ticks fuel).2 = k + 1 := by
  obtain ⟨x, hx⟩ := Nat.exists_eq_add_of_le hfuel
  have hfe : fuel = k + (x + 1) := by omega
  subst hfe
  have hwait : waitForGaleraInit m ticks (k + (x + 1)) =
      (some (.error .statusQueryFailed),
        quietEvents m k ++ [.monitStatus m.serviceName]) := by
    rw [wait_split m ticks k (x + 1) hq, waitAux_statusErr m ticks x k e hs]
  have h2 : (waitForGaleraInit m ticks (k + (x + 1))).2 =
      quietEvents m k ++ [.monitStatus m.serviceName] := by rw [hwait]
  refine ⟨by rw [hwait], h2, ?_, ?_⟩
  · rw [h2, countProbes_append, countProbes_quietEvents]
    simp [countProbes, List.countP_cons]
  · rw [h2, countStatusQueries_append, countStatusQueries_quietEvents]
    simp [countStatusQueries, List.countP_cons]

/-- C4 witness: one quiet tick, then a failing status query: the wait
fails with `StatusQueryFailed` after two status queries and one probe. -/
theorem status_query_failure_terminates_wait_witness :
    (∀ i, i < 1 → (statusErrTicks i).quiet) ∧
    (statusErrTicks 1).statusResult = Except.error "connection refused" ∧
    (waitForGaleraInit sampleM statusErrTicks 7).1 =
      some (.error .statusQueryFailed) ∧
    countProbes (waitForGaleraInit sampleM statusErrTicks 7).2 = 1 ∧
    countStatusQueries (waitForGaleraInit sampleM statusErrTicks 7).2 = 2 := by
  have hq : ∀ i, i < 1 → (statusErrTicks i).quiet := by
    intro i hi; simp [statusErrTicks, TickEnv.quiet, hi]
  have h := status_query_failure_terminates_wait sampleM statusErrTicks 1 7
    "connection refused" hq rfl (by omega)
  exact ⟨hq, rfl, h.1, h.2.2.1, h.2.2.2⟩

/-- C5: for every start intent, the marker write precedes the supervisor
`Start` command, and a failed marker write returns `PersistenceFailure`
with the supervisor never called (`Start` call count 0). -/
theorem marker_write_precedes_start
    (m : ServiceManager) (env : Env) (fuel : Nat) :
    (env.writeOk = false →
      (m.serviceName ≠ "garbd" →
        (StartServiceBootstrap m env fuel).1 =
          some (.error .persistenceFailure)) ∧
      countStarts (StartServiceBootstrap m env fuel).2 = 0 ∧
      (StartServiceJoin m env fuel).1 = some (.error .persistenceFailure) ∧
      countStarts (StartServiceJoin m env fuel).2 = 0 ∧
      (StartServiceSingleNode m env fuel).1 =
        some (.error .persistenceFailure) ∧
      countStarts (StartServiceSingleNode m env fuel).2 = 0) ∧
    (env.writeOk = true →
      (m.serviceName ≠ "garbd" → ∃ rest,
        (StartServiceBootstrap m env fuel).2 =
          .fsWrite m.stateFilePath "NEEDS_BOOTSTRAP" ::
            .monitStart m.serviceName :: rest) ∧
      (∃ rest, (StartServiceJoin m env fuel).2 =
        .fsWrite m.stateFilePath "CLUSTERED" ::
          .monitStart m.serviceName :: rest) ∧
      (∃ rest, (StartServiceSingleNode m env fuel).2 =
        .fsWrite m.stateFilePath "SINGLE_NODE" ::
          .monitStart m.serviceName :: rest)) := by
  constructor
  · intro hw
    refine ⟨fun hname => ?_, ?_, ?_, ?_, ?_, ?_⟩
    · simp [StartServiceBootstrap, hname, hw]
    · by_cases hg : m.serviceName = "garbd" <;>
        simp [StartServiceBootstrap, hg, hw, countStarts]
    · simp [StartServiceJoin, hw]
    · simp [StartServiceJoin, hw, countStarts]
    · simp [StartServiceSingleNode, hw]
    · simp [StartServiceSingleNode, hw, countStarts]
  · intro hw
    exact ⟨fun hname => ⟨_, startBootstrap_events m env fuel hname hw⟩,
      ⟨_, startJoin_events m env fuel hw⟩,
      ⟨_, startSingleNode_events m env fuel hw⟩⟩

/-- C5 witness: with a failing marker write, `Join` returns
`PersistenceFailure` and issues no `Start` call; with a succeeding one,
the trace starts with the write followed by `Start`. -/
theorem marker_write_precedes_start_witness :
    (StartServiceJoin sampleM ⟨false, none, none, okTicks⟩ 3).1 =
      some (.error .persistenceFailure) ∧
    countStarts (StartServiceJoin sampleM ⟨false, none, none, okTicks⟩ 3).2 = 0 ∧
    (∃ rest, (StartServiceJoin sampleM okEnv 3).2 =
      .fsWrite sampleM.stateFilePath "CLUSTERED" ::
        .monitStart sampleM.serviceName :: rest) := by
  have h1 := marker_write_precedes_start sampleM ⟨false, none, none, okTicks⟩ 3
  have h2 := marker_write_precedes_start sampleM okEnv 3
  exact ⟨(h1.1 rfl).2.2.1, (h1.1 rfl).2.2.2.1, (h2.2 rfl).2.1⟩

/-- C6: `Bootstrap` on the arbitrator role (`garbd`) fails with
`InvalidIntent` with an empty trace (no write, no `Start`); otherwise it
writes `NEEDS_BOOTSTRAP` before `Start`, and any success returns the
message "cluster bootstrap successful". -/
theorem bootstrap_arbitrator_invalid
    (m : ServiceManager) (env : Env) (fuel : Nat) :
    (m.serviceName = "garbd" →
      StartServiceBootstrap m env fuel = (some (.error .invalidIntent), [])) ∧
    (m.serviceName ≠ "garbd" → env.writeOk = true → ∃ rest,
      (StartServiceBootstrap m env fuel).2 =
        .fsWrite m.stateFilePath "NEEDS_BOOTSTRAP" ::
          .monitStart m.serviceName :: rest) ∧
    (∀ msg, (StartServiceBootstrap m env fuel).1 = some (.ok msg) →
      msg = "cluster bootstrap successful") := by
  refine ⟨fun hg => ?_, fun hname hw => ⟨_, startBootstrap_events m env fuel hname hw⟩,
    fun msg h => startBootstrap_ok_msg m env fuel msg h⟩
  simp [StartServiceBootstrap, hg]

/-- C6 witness: `Bootstrap` on `garbd` yields `InvalidIntent` and no
events; on a database node it writes the marker then starts and, when it
succeeds, it succeeds with the bootstrap message. -/
theorem bootstrap_arbitrator_invalid_witness :
    StartServiceBootstrap garbdM okEnv 3 = (some (.error .invalidIntent), []) ∧
    (∃ rest, (StartServiceBootstrap sampleM okEnv 3).2 =
      .fsWrite sampleM.stateFilePath "NEEDS_BOOTSTRAP" ::
        .monitStart sampleM.serviceName :: rest) ∧
    (StartServiceBootstrap sampleM okEnv 3).1 =
      some (.ok "cluster bootstrap successful") := by
  have hg := bootstrap_arbitrator_invalid garbdM okEnv 3
  have hm := bootstrap_arbitrator_invalid sampleM okEnv 3
  have hok : (StartServiceBootstrap sampleM okEnv 3).1 =
      some (.ok "cluster bootstrap successful") := rfl
  exact ⟨hg.1 rfl, hm.2.1 (by simp [sampleM]) rfl, hok⟩

/-- C7: `Join` writes marker `CLUSTERED` and any success carries message
"join cluster successful"; `SingleNode` writes marker `SINGLE_NODE` and
any success carries message "single node start successful" — for every
service identity, the arbitrator included. -/
theorem join_single_node_write_markers
    (m : ServiceManager) (env : Env) (fuel : Nat) :
    (env.writeOk = true → ∃ rest,
      (StartServiceJoin m env fuel).2 =
        .fsWrite m.stateFilePath "CLUSTERED" :: rest) ∧
    (∀ msg, (StartServiceJoin m env fuel).1 = some (.ok msg) →
      msg = "join cluster successful") ∧
    (env.writeOk = true → ∃ rest,
      (StartServiceSingleNode m env fuel).2 =
        .fsWrite m.stateFilePath "SINGLE_NODE" :: rest) ∧
    (∀ msg, (StartServiceSingleNode m env fuel).1 = some (.ok msg) →
      msg = "single node start successful") :=
  ⟨fun hw => ⟨_, startJoin_events m env fuel hw⟩,
    fun msg h => startJoin_ok_msg m env fuel msg h,
    fun hw => ⟨_, startSingleNode_events m env fuel hw⟩,
    fun msg h => startSingleNode_ok_msg m env fuel msg h⟩

/-- C7 witness: on the arbitrator identity, `Join` still writes marker
`CLUSTERED` and succeeds with the join message, and `SingleNode` still
writes `SINGLE_NODE` and succeeds with the single-node message. -/
theorem join_single_node_write_markers_witness :
    (∃ rest, (StartServiceJoin garbdM okEnv 3).2 =
      .fsWrite garbdM.stateFilePath "CLUSTERED" :: rest) ∧
    (StartServiceJoin garbdM okEnv 3).1 =
      some (.ok "join cluster successful") ∧
    (∃ rest, (StartServiceSingleNode garbdM okEnv 3).2 =
      .fsWrite garbdM.stateFilePath "SINGLE_NODE" :: rest) ∧
    (StartServiceSingleNode garbdM okEnv 3).1 =
      some (.ok "single node start successful") := by
  have h := join_single_node_write_markers garbdM okEnv 3
  exact ⟨h.1 rfl, rfl, h.2.2.1 rfl, rfl⟩

/-- C8: `Stop` issues exactly one supervisor `Stop` command and nothing
else (no file write, no probe, no status query), returns "stop
successful" iff the supervisor `Stop` succeeds, and surfaces the
supervisor's error unchanged otherwise. -/
theorem stop_only_stops (m : ServiceManager) (env : Env) :
    (StopService m env).2 = [.monitStop m.serviceName] ∧
    countWrites (StopService m env).2 = 0 ∧
    countProbes (StopService m env).2 = 0 ∧
    countStatusQueries (StopService m env).2 = 0 ∧
    countStops (StopService m env).2 = 1 ∧
    ((StopService m env).1 = .ok "stop successful" ↔ env.stopErr = none) ∧
    (∀ e, env.stopErr = some e →
      (StopService m env).1 = .error (.supervisorFailure e)) := by
  rcases h : env.stopErr with _ | e <;>
    simp [StopService, h, countWrites, countProbes, countStatusQueries,
      countStops, List.countP_cons]

/-- C8 witness: with a failing supervisor `Stop`, the error is surfaced
unchanged after exactly one `Stop` call; with a succeeding one, the stop
message is returned. -/
theorem stop_only_stops_witness :
    (StopService sampleM ⟨true, none, some "boom", okTicks⟩).1 =
      .error (.supervisorFailure "boom") ∧
    countStops (StopService sampleM ⟨true, none, some "boom", okTicks⟩).2 = 1 ∧
    (StopService sampleM okEnv).1 = .ok "stop successful" := by
  have h1 := stop_only_stops sampleM ⟨true, none, some "boom", okTicks⟩
  have h2 := stop_only_stops sampleM okEnv
  exact ⟨h1.2.2.2.2.2.2 "boom" rfl, h1.2.2.2.2.1, (h2.2.2.2.2.2.1).2 rfl⟩

/-- If every tick is quiet, the loop reaches no terminal condition within
any amount of fuel. -/
lemma waitAux_quiet_forever (m : ServiceManager) (ticks : Nat → TickEnv)
    (hq : ∀ i, (ticks i).quiet) :
    ∀ fuel i, (waitForGaleraInitAux m ticks fuel i).1 = none := by
  intro fuel
  induction fuel with
  | zero => intro i; rfl
  | succ fuel ih =>
      intro i
      rw [waitAux_quiet_step m ticks fuel i (hq i)]
      exact ih (i + 1)

/-- C9: the readiness wait has no overall deadline or tick limit: it
terminates on the first tick whose signals are decisive — after exactly
`k + 1` status queries when tick `k` is the first decisive one, whatever
fuel beyond that is available — and if no tick is ever decisive (always
running, probe always a connection error) it never terminates. -/
theorem wait_has_no_deadline (m : ServiceManager) (ticks : Nat → TickEnv) :
    (∀ k fuel, (∀ i, i < k → ¬ (ticks i).decisive) → (ticks k).decisive →
      k + 1 ≤ fuel →
      (∃ r, (waitForGaleraInit m ticks fuel).1 = some r) ∧
      countStatusQueries (waitForGaleraInit m ticks fuel).2 = k + 1) ∧
    ((∀ i, ¬ (ticks i).decisive) →
      ∀ fuel, (waitForGaleraInit m ticks fuel).1 = none) := by
  constructor
  · intro k fuel hnd hd hfuel
    have hq : ∀ i, i < k → (ticks i).quiet := fun i hi =>
      quiet_of_not_decisive _ (hnd i hi)
    obtain ⟨x, hx⟩ := Nat.exists_eq_add_of_le hfuel
    have hfe : fuel = k + (x + 1) := by omega
    subst hfe
    rcases hs : (ticks k).statusResult with e | s
    · have hwait : waitForGaleraInit m ticks (k + (x + 1)) =
          (some (.error .statusQueryFailed),
            quietEvents m k ++ [.monitStatus m.serviceName]) := by
        rw [wait_split m ticks k (x + 1) hq, waitAux_statusErr m ticks x k e hs]
      have h2 : (waitForGaleraInit m ticks (k + (x + 1))).2 =
          quietEvents m k ++ [.monitStatus m.serviceName] := by rw [hwait]
      refine ⟨⟨_, by rw [hwait]⟩, ?_⟩
      rw [h2, countStatusQueries_append, countStatusQueries_quietEvents]
      simp [countStatusQueries, List.countP_cons]
    · by_cases hr : s = ServiceRunning
      · subst hr
        rcases hp : (ticks k).probeResult with _ | c
        · exact absurd hd (by simp [TickEnv.decisive, hs, hp])
        · have hwait : waitForGaleraInit m ticks (k + (x + 1)) =
              (some (if c = 200 then .ok () else
                  .error (.readinessRejected c)),
                quietEvents m k ++ [.monitStatus m.serviceName,
                  .probeGet m.galeraInitAddress]) := by
            rw [wait_split m ticks k (x + 1) hq,
              waitAux_response m ticks x k c hs hp]
          have h2 : (waitForGaleraInit m ticks (k + (x + 1))).2 =
              quietEvents m k ++ [.monitStatus m.serviceName,
                .probeGet m.galeraInitAddress] := by rw [hwait]
          refine ⟨⟨_, by rw [hwait]⟩, ?_⟩
          rw [h2, countStatusQueries_append, countStatusQueries_quietEvents]
          simp [countStatusQueries, List.countP_cons]
      · have hwait : waitForGaleraInit m ticks (k + (x + 1)) =
            (some (.error .processNotRunning),
              quietEvents m k ++ [.monitStatus m.serviceName]) := by
          rw [wait_split m ticks k (x + 1) hq,
            waitAux_notRunning m ticks x k s hs hr]
        have h2 : (waitForGaleraInit m ticks (k + (x + 1))).2 =
            quietEvents m k ++ [.monitStatus m.serviceName] := by rw [hwait]
        refine ⟨⟨_, by rw [hwait]⟩, ?_⟩
        rw [h2, countStatusQueries_append, countStatusQueries_quietEvents]
        simp [countStatusQueries, List.countP_cons]
  · intro hq fuel
    exact waitAux_quiet_forever m ticks
      (fun i => quiet_of_not_decisive _ (hq i)) fuel 0

/-- C9 witness: with a first decisive tick at index 1 the wait stops
after two status queries, and with forever-quiet ticks it has not
terminated even after 1000 ticks of fuel. -/
theorem wait_has_no_deadline_witness :
    (∃ r, (waitForGaleraInit sampleM statusErrTicks 7).1 = some r) ∧
    countStatusQueries (waitForGaleraInit sampleM statusErrTicks 7).2 = 2 ∧
    (waitForGaleraInit sampleM quietTicks 1000).1 = none := by
  have h1 := (wait_has_no_deadline sampleM statusErrTicks).1 1 7
    (by
      intro i hi
      have hi0 : i = 0 := by omega
      subst hi0
      simp [TickEnv.decisive, statusErrTicks, ServiceRunning])
    (by simp [TickEnv.decisive, statusErrTicks]) (by omega)
  have h2 := (wait_has_no_deadline sampleM quietTicks).2
    (by intro i; simp [TickEnv.decisive, quietTicks, ServiceRunning]) 1000
  exact ⟨h1.1, h1.2, h2⟩

/-- The events after the marker write of a start operation (the `Start`
call and the wait's events) contain no file write. -/
lemma start_tail_no_write (m : ServiceManager) (env : Env) (fuel : Nat) :
    ∀ p c, Event.fsWrite p c ∉
      (Event.monitStart m.serviceName ::
        (if env.startErr = none then (waitForGaleraInit m env.ticks fuel).2
          else [])) := by
  intro p c
  rcases hst : env.startErr with _ | e
  · simp only [hst, if_pos rfl, List.mem_cons]
    rintro (h | h)
    · exact Event.noConfusion h
    · exact waitAux_no_write m env.ticks fuel 0 p c h
  · simp [hst]

/-- C10: once the marker write has succeeded, no later failure of the
operation (supervisor `Start` failure or a terminal wait failure)
rewrites or removes the marker: on a failed return, replaying the
operation's trace leaves the marker file containing exactly the intent's
token. -/
theorem marker_not_rolled_back
    (m : ServiceManager) (env : Env) (fuel : Nat)
    (fs : String → Option String) (hw : env.writeOk = true) :
    (∀ f, (StartServiceJoin m env fuel).1 = some (.error f) →
      applyEvents (StartServiceJoin m env fuel).2 fs m.stateFilePath =
        some "CLUSTERED") ∧
    (∀ f, (StartServiceSingleNode m env fuel).1 = some (.error f) →
      applyEvents (StartServiceSingleNode m env fuel).2 fs m.stateFilePath =
        some "SINGLE_NODE") ∧
    (∀ f, m.serviceName ≠ "garbd" →
      (StartServiceBootstrap m env fuel).1 = some (.error f) →
      applyEvents (StartServiceBootstrap m env fuel).2 fs m.stateFilePath =
        some "NEEDS_BOOTSTRAP") := by
  refine ⟨fun f hf => ?_, fun f hf => ?_, fun f hname hf => ?_⟩
  · rw [startJoin_events m env fuel hw]
    exact applyEvents_marker m.stateFilePath "CLUSTERED" _ fs
      (start_tail_no_write m env fuel)
  · rw [startSingleNode_events m env fuel hw]
    exact applyEvents_marker m.stateFilePath "SINGLE_NODE" _ fs
      (start_tail_no_write m env fuel)
  · rw [startBootstrap_events m env fuel hname hw]
    exact applyEvents_marker m.stateFilePath "NEEDS_BOOTSTRAP" _ fs
      (start_tail_no_write m env fuel)

/-- C10 witness: after the marker write, a failing supervisor `Start`
leaves the `Join` marker file containing exactly `CLUSTERED`. -/
theorem marker_not_rolled_back_witness :
    (StartServiceJoin sampleM ⟨true, some "start failed", none, okTicks⟩ 3).1 =
      some (.error (.supervisorFailure "start failed")) ∧
    applyEvents
      (StartServiceJoin sampleM ⟨true, some "start failed", none, okTicks⟩ 3).2
      (fun _ => none) sampleM.stateFilePath = some "CLUSTERED" := by
  have h := marker_not_rolled_back sampleM
    ⟨true, some "start failed", none, okTicks⟩ 3 (fun _ => none) rfl
  exact ⟨rfl, h.1 (.supervisorFailure "start failed") rfl⟩

end GaleraHealthcheck
